import Mathlib

/-!
Shallow embedding of the player-physics core of the `three_scene` repository:
the character-driven `PlayerModel` (src/unnamed/part_001), the camera-driven
`PlayerModel` and `PlayerCamera` (src/src/scenes/gameCameraDriven/), the
inline player physics of the basic game scene (src/src/scenes/game/), and the
out-of-bounds teleports of the two variant scenes.  Vectors are modelled over
`ℝ` (idealising JS doubles); the octree intersection query is an external
collaborator and is modelled as an `Option Contact` input; `THREE.Vector3`
operations keep their library semantics, in particular `normalize` keeps its
zero-length division guard (`divideScalar(this.length() || 1)`).
-/

noncomputable section

namespace ThreeScene

/-- A 3-component real vector, modelling `THREE.Vector3`. -/
@[ext]
structure Vec3 where
  x : ℝ
  y : ℝ
  z : ℝ

namespace Vec3

/-- The zero vector (`new THREE.Vector3()`). -/
def zero : Vec3 := ⟨0, 0, 0⟩

/-- Componentwise addition (`Vector3.add`). -/
def add (a b : Vec3) : Vec3 := ⟨a.x + b.x, a.y + b.y, a.z + b.z⟩

/-- Componentwise subtraction (`Vector3.sub`). -/
def sub (a b : Vec3) : Vec3 := ⟨a.x - b.x, a.y - b.y, a.z - b.z⟩

/-- Scalar multiplication (`Vector3.multiplyScalar`). -/
def smul (c : ℝ) (v : Vec3) : Vec3 := ⟨c * v.x, c * v.y, c * v.z⟩

/-- Dot product (`Vector3.dot`). -/
def dot (a b : Vec3) : ℝ := a.x * b.x + a.y * b.y + a.z * b.z

/-- Operation `addScaledVector`: `v.addScaledVector w s` adds `w * s` into `v`. -/
def addScaledVector (v w : Vec3) (s : ℝ) : Vec3 := v.add (smul s w)

/-- Euclidean length (`Vector3.length`). -/
def length (v : Vec3) : ℝ := Real.sqrt (v.dot v)

/-- Model of `Vector3.normalize`, which is `divideScalar(this.length() || 1)` in
three.js: a zero-length vector is divided by `1`, i.e. left unchanged, so no
division by zero ever happens. -/
def normalize (v : Vec3) : Vec3 := if v.length = 0 then v else smul (1 / v.length) v

/-- Overwrite the `y` component (`v.y = c`). -/
def setY (v : Vec3) (c : ℝ) : Vec3 := ⟨v.x, c, v.z⟩

/-- Cross product (`Vector3.cross`). -/
def cross (a b : Vec3) : Vec3 :=
  ⟨a.y * b.z - a.z * b.y, a.z * b.x - a.x * b.z, a.x * b.y - a.y * b.x⟩

/-- Application of the matrix built by `Matrix4.makeRotationY θ`
(rotation about the vertical axis). -/
def rotY (θ : ℝ) (v : Vec3) : Vec3 :=
  ⟨v.x * Real.cos θ + v.z * Real.sin θ, v.y, -(v.x * Real.sin θ) + v.z * Real.cos θ⟩

end Vec3

/-- The capsule collider (`Capsule` from the three.js addons): a segment from
`start` to `endPt` plus a radius.  The source field `end` is renamed `endPt`
because `end` is a Lean keyword. -/
@[ext]
structure Capsule where
  start : Vec3
  endPt : Vec3
  radius : ℝ

/-- Operation `Capsule.translate`: shift both segment endpoints. -/
def Capsule.translate (c : Capsule) (v : Vec3) : Capsule :=
  ⟨c.start.add v, c.endPt.add v, c.radius⟩

/-- Result of `worldOctree.capsuleIntersect`: a contact normal and a
penetration depth.  The query returns `none` when there is no intersection. -/
structure Contact where
  normal : Vec3
  depth : ℝ

/-- The five movement flags kept in a `moveState` record. -/
structure MoveState where
  forward : Bool
  backward : Bool
  left : Bool
  right : Bool
  jump : Bool

/-- The raw key states the controllers consult
(the KeyW / KeyS / KeyA / KeyD / Space entries of `keyStates`). -/
structure KeyStates where
  keyW : Bool
  keyS : Bool
  keyA : Bool
  keyD : Bool
  space : Bool

/-- The numerical noise floor `1e-10` used by all three collision resolvers. -/
def noiseFloor : ℝ := 1 / 10 ^ 10

/-- The canonical spawn capsule of both `PlayerModel` variants:
start `(0,0,0)`, end `(0,1.8,0)`, radius `0.35`. -/
def spawnCapsule : Capsule := ⟨⟨0, 0, 0⟩, ⟨0, 1.8, 0⟩, 0.35⟩

namespace CharPM

/-- State of the character-driven `PlayerModel` (src/unnamed/part_001),
restricted to the physics/control fields (the loaded mesh and the debug
capsule are render-only). -/
structure State where
  playerCollider : Capsule
  playerVelocity : Vec3
  playerOnFloor : Bool
  playerDirection : Vec3
  moveState : MoveState
  groundSpeed : ℝ
  airSpeed : ℝ
  jumpForce : ℝ
  dampingFactor : ℝ

/-- Constructor state: spawn capsule, zero velocity, airborne, facing `+z`,
no keys held, default movement parameters. -/
def initial : State :=
  { playerCollider := ⟨⟨0, 0, 0⟩, ⟨0, 1.8, 0⟩, 0.35⟩
    playerVelocity := Vec3.zero
    playerOnFloor := false
    playerDirection := ⟨0, 0, 1⟩
    moveState := ⟨false, false, false, false, false⟩
    groundSpeed := 25
    airSpeed := 8
    jumpForce := 15
    dampingFactor := 4 }

/-- Model of `PlayerModel.checkCollisions` (character-driven), with the octree query
result passed in.  `result.normal.multiplyScalar(result.depth)` in the source
mutates the normal, but only after the slide-removal line has used it. -/
def checkCollisions (s : State) (result : Option Contact) : State :=
  match result with
  | none => { s with playerOnFloor := false }
  | some r =>
    let onFloor : Bool := if 0 < r.normal.y then true else false
    let vel := if onFloor then s.playerVelocity
      else s.playerVelocity.addScaledVector r.normal (-(r.normal.dot s.playerVelocity))
    let coll := if noiseFloor ≤ r.depth
      then s.playerCollider.translate (Vec3.smul r.depth r.normal)
      else s.playerCollider
    { s with playerOnFloor := onFloor, playerVelocity := vel, playerCollider := coll }

/-- Model of `PlayerModel.updatePhysics` (character-driven): gravity when airborne,
exponential damping (reduced to a tenth in the air), position integration.
The trailing `updateModelTransform()` only syncs the render mesh. -/
def updatePhysics (s : State) (deltaTime gravity : ℝ) : State :=
  let damping0 := Real.exp (-s.dampingFactor * deltaTime) - 1
  let v1 := if s.playerOnFloor then s.playerVelocity
    else s.playerVelocity.setY (s.playerVelocity.y - gravity * deltaTime)
  let damping := if s.playerOnFloor then damping0 else damping0 * 0.1
  let v2 := v1.addScaledVector v1 damping
  let deltaPosition := Vec3.smul deltaTime v2
  { s with playerVelocity := v2
           playerCollider := s.playerCollider.translate deltaPosition }

/-- Model of `PlayerModel.executeJump` (character-driven). -/
def executeJump (s : State) : State :=
  if s.playerOnFloor then { s with playerVelocity := s.playerVelocity.setY s.jumpForce }
  else s

/-- Model of `PlayerModel.resetPosition` (character-driven). -/
def resetPosition (s : State) : State :=
  { s with playerCollider := ⟨⟨0, 0, 0⟩, ⟨0, 1.8, 0⟩, 0.35⟩
           playerVelocity := ⟨0, 0, 0⟩ }

/-- Model of `PlayerModel.getColliderPosition` (character-driven): the capsule end. -/
def getColliderPosition (s : State) : Vec3 := s.playerCollider.endPt

/-- The turn part of `PlayerModel.processMovement`: the left/right flags
rotate `playerDirection` by `±(1.5 * deltaTime)` about the vertical axis and
renormalise it. -/
def turnStep (s : State) (deltaTime : ℝ) : State :=
  let rotationSpeed := 1.5 * deltaTime
  let d1 := if s.moveState.left
    then (Vec3.rotY rotationSpeed s.playerDirection).normalize
    else s.playerDirection
  let d2 := if s.moveState.right
    then (Vec3.rotY (-rotationSpeed) d1).normalize
    else d1
  { s with playerDirection := d2 }

/-- The `moveDirection` accumulated by `PlayerModel.processMovement` from the
forward/backward flags, before it is normalised. -/
def accumMoveDirection (s : State) : Vec3 :=
  let m1 := if s.moveState.forward then Vec3.zero.add s.playerDirection else Vec3.zero
  if s.moveState.backward then m1.sub s.playerDirection else m1

/-- The translate-intent part of `PlayerModel.processMovement`: when a
forward/backward flag is set, normalise the accumulated direction, zero its
vertical component, scale by `deltaTime * (onFloor ? groundSpeed : airSpeed)`
and add the result into the velocity. -/
def moveStep (s : State) (deltaTime : ℝ) : State :=
  let speedDelta := deltaTime * (if s.playerOnFloor then s.groundSpeed else s.airSpeed)
  if s.moveState.forward || s.moveState.backward then
    let moveDirection := ((accumMoveDirection s).normalize).setY 0
    { s with playerVelocity := s.playerVelocity.add (Vec3.smul speedDelta moveDirection) }
  else s

/-- Model of `PlayerModel.processMovement` (character-driven): turn, then translate
intent, then jump while the jump flag is set. -/
def processMovement (s : State) (deltaTime : ℝ) : State :=
  let s1 := turnStep s deltaTime
  let s2 := moveStep s1 deltaTime
  if s2.moveState.jump then executeJump s2 else s2

end CharPM

namespace CamPM

/-- State of the camera-driven `PlayerModel`
(src/src/scenes/gameCameraDriven/PlayerModel.ts), restricted to the
physics fields. -/
structure State where
  playerCollider : Capsule
  playerVelocity : Vec3
  playerOnFloor : Bool
  groundSpeed : ℝ
  airSpeed : ℝ
  jumpForce : ℝ
  dampingFactor : ℝ

/-- Constructor state of the camera-driven `PlayerModel`. -/
def initial : State :=
  { playerCollider := ⟨⟨0, 0, 0⟩, ⟨0, 1.8, 0⟩, 0.35⟩
    playerVelocity := Vec3.zero
    playerOnFloor := false
    groundSpeed := 25
    airSpeed := 8
    jumpForce := 15
    dampingFactor := 4 }

/-- Model of `PlayerModel.checkCollisions` (camera-driven variant). -/
def checkCollisions (s : State) (result : Option Contact) : State :=
  match result with
  | none => { s with playerOnFloor := false }
  | some r =>
    let onFloor : Bool := if 0 < r.normal.y then true else false
    let vel := if onFloor then s.playerVelocity
      else s.playerVelocity.addScaledVector r.normal (-(r.normal.dot s.playerVelocity))
    let coll := if noiseFloor ≤ r.depth
      then s.playerCollider.translate (Vec3.smul r.depth r.normal)
      else s.playerCollider
    { s with playerOnFloor := onFloor, playerVelocity := vel, playerCollider := coll }

/-- Model of `PlayerModel.updatePhysics` (camera-driven variant). -/
def updatePhysics (s : State) (deltaTime gravity : ℝ) : State :=
  let damping0 := Real.exp (-s.dampingFactor * deltaTime) - 1
  let v1 := if s.playerOnFloor then s.playerVelocity
    else s.playerVelocity.setY (s.playerVelocity.y - gravity * deltaTime)
  let damping := if s.playerOnFloor then damping0 else damping0 * 0.1
  let v2 := v1.addScaledVector v1 damping
  let deltaPosition := Vec3.smul deltaTime v2
  { s with playerVelocity := v2
           playerCollider := s.playerCollider.translate deltaPosition }

/-- Model of `PlayerModel.executeJump` (camera-driven variant). -/
def executeJump (s : State) : State :=
  if s.playerOnFloor then { s with playerVelocity := s.playerVelocity.setY s.jumpForce }
  else s

/-- Model of `PlayerModel.resetPosition` (camera-driven variant). -/
def resetPosition (s : State) : State :=
  { s with playerCollider := ⟨⟨0, 0, 0⟩, ⟨0, 1.8, 0⟩, 0.35⟩
           playerVelocity := ⟨0, 0, 0⟩ }

/-- Model of `PlayerModel.getColliderPosition` (camera-driven variant). -/
def getColliderPosition (s : State) : Vec3 := s.playerCollider.endPt

/-- Model of `PlayerModel.executeForwardMovement`. -/
def executeForwardMovement (s : State) (deltaTime : ℝ) (direction : Vec3) : State :=
  let speedDelta := deltaTime * (if s.playerOnFloor then s.groundSpeed else s.airSpeed)
  let forwardVector := (direction.setY 0).normalize
  { s with playerVelocity := s.playerVelocity.add (Vec3.smul speedDelta forwardVector) }

/-- Model of `PlayerModel.executeBackwardMovement`. -/
def executeBackwardMovement (s : State) (deltaTime : ℝ) (direction : Vec3) : State :=
  let speedDelta := deltaTime * (if s.playerOnFloor then s.groundSpeed else s.airSpeed)
  let forwardVector := (direction.setY 0).normalize
  { s with playerVelocity := s.playerVelocity.add (Vec3.smul (-speedDelta) forwardVector) }

/-- Model of `PlayerModel.executeLeftMovement`. -/
def executeLeftMovement (s : State) (deltaTime : ℝ) (direction up : Vec3) : State :=
  let speedDelta := deltaTime * (if s.playerOnFloor then s.groundSpeed else s.airSpeed)
  let sideVector := ((direction.setY 0).normalize).cross up
  { s with playerVelocity := s.playerVelocity.add (Vec3.smul (-speedDelta) sideVector) }

/-- Model of `PlayerModel.executeRightMovement`. -/
def executeRightMovement (s : State) (deltaTime : ℝ) (direction up : Vec3) : State :=
  let speedDelta := deltaTime * (if s.playerOnFloor then s.groundSpeed else s.airSpeed)
  let sideVector := ((direction.setY 0).normalize).cross up
  { s with playerVelocity := s.playerVelocity.add (Vec3.smul speedDelta sideVector) }

end CamPM

namespace PlayerCamera

/-- The movement-state copy held by the camera-driven `PlayerCamera`. -/
structure CamState where
  moveState : MoveState

/-- Model of `PlayerCamera.updateMovementState`: copy the raw key states into the
movement-state flags. -/
def updateMovementState (c : CamState) (ks : KeyStates) : CamState :=
  { c with moveState := ⟨ks.keyW, ks.keyS, ks.keyA, ks.keyD, ks.space⟩ }

/-- Model of `PlayerCamera.processMovement`: it first re-reads the raw key state via
`updateMovementState`, then issues movement commands to the `PlayerModel`;
after issuing a jump command it clears its one-shot jump flag.  The camera
forward and up vectors (`getCameraDirection()` / `camera.up`) are passed in:
the camera itself is modelled externally. -/
def processMovement (c : CamState) (p : CamPM.State) (ks : KeyStates)
    (deltaTime : ℝ) (cameraDirection cameraUp : Vec3) : CamState × CamPM.State :=
  let c1 := updateMovementState c ks
  let p1 := if c1.moveState.forward
    then CamPM.executeForwardMovement p deltaTime cameraDirection else p
  let p2 := if c1.moveState.backward
    then CamPM.executeBackwardMovement p1 deltaTime cameraDirection else p1
  let p3 := if c1.moveState.left
    then CamPM.executeLeftMovement p2 deltaTime cameraDirection cameraUp else p2
  let p4 := if c1.moveState.right
    then CamPM.executeRightMovement p3 deltaTime cameraDirection cameraUp else p3
  if c1.moveState.jump
  then ({ c1 with moveState := { c1.moveState with jump := false } }, CamPM.executeJump p4)
  else (c1, p4)

end PlayerCamera

namespace GameScene

/-- Player physics state closed over by `createGameScene`
(src/src/scenes/game/gameScene.ts). -/
structure State where
  playerCollider : Capsule
  playerVelocity : Vec3
  playerOnFloor : Bool

/-- The scene constant `GRAVITY` (also used by both variant scenes). -/
def GRAVITY : ℝ := 30

/-- Model of `playerCollisions` of the basic game scene, with the octree query result
passed in. -/
def playerCollisions (s : State) (result : Option Contact) : State :=
  match result with
  | none => { s with playerOnFloor := false }
  | some r =>
    let onFloor : Bool := if 0 < r.normal.y then true else false
    let vel := if onFloor then s.playerVelocity
      else s.playerVelocity.addScaledVector r.normal (-(r.normal.dot s.playerVelocity))
    let coll := if noiseFloor ≤ r.depth
      then s.playerCollider.translate (Vec3.smul r.depth r.normal)
      else s.playerCollider
    { s with playerOnFloor := onFloor, playerVelocity := vel, playerCollider := coll }

/-- The integration part of `updatePlayer` of the basic game scene (the lines
before its `playerCollisions()` call; the trailing camera copy is
render-only).  The damping coefficient is the literal `4` and gravity is the
scene constant `GRAVITY`. -/
def updatePlayerIntegrate (s : State) (deltaTime : ℝ) : State :=
  let damping0 := Real.exp (-4 * deltaTime) - 1
  let v1 := if s.playerOnFloor then s.playerVelocity
    else s.playerVelocity.setY (s.playerVelocity.y - GRAVITY * deltaTime)
  let damping := if s.playerOnFloor then damping0 else damping0 * 0.1
  let v2 := v1.addScaledVector v1 damping
  let deltaPosition := Vec3.smul deltaTime v2
  { s with playerVelocity := v2
           playerCollider := s.playerCollider.translate deltaPosition }

/-- Model of `updatePlayer` of the basic game scene: integrate, then resolve
collisions (with the octree query result of that call passed in). -/
def updatePlayer (s : State) (deltaTime : ℝ) (result : Option Contact) : State :=
  playerCollisions (updatePlayerIntegrate s deltaTime) result

end GameScene

/-- Model of `teleportPlayerIfOob` of the player-driven scene
(src/src/scenes/gamePlayerDriven/gameScenePlayerDriven.ts): reset the player
when `getColliderPosition().y <= -25`.  The follow-camera angle reset is
render-only. -/
def teleportPlayerIfOobChar (s : CharPM.State) : CharPM.State :=
  if (CharPM.getColliderPosition s).y ≤ -25 then CharPM.resetPosition s else s

/-- Model of `teleportPlayerIfOob` of the camera-driven scene
(src/src/scenes/gameCameraDriven/gameSceneCameraDriven.ts): reset the player
when `getColliderPosition().y <= -25`.  The camera/model resync is
render-only. -/
def teleportPlayerIfOobCam (s : CamPM.State) : CamPM.State :=
  if (CamPM.getColliderPosition s).y ≤ -25 then CamPM.resetPosition s else s

/-! ### Helper lemmas -/

/-- Normalising the zero vector is a no-op (the three.js `|| 1` division
guard takes effect). -/
theorem Vec3.normalize_zero : Vec3.zero.normalize = Vec3.zero := by
  simp [Vec3.normalize, Vec3.length, Vec3.dot, Vec3.zero]

/-- A vector whose squared length is `1` is unchanged by `normalize`. -/
theorem Vec3.normalize_of_unit (v : Vec3) (hv : v.dot v = 1) : v.normalize = v := by
  have hl : v.length = 1 := by rw [Vec3.length, hv, Real.sqrt_one]
  ext <;> simp [Vec3.normalize, hl, Vec3.smul]

/-- Rotation `rotY` preserves the squared length. -/
theorem Vec3.dot_rotY_self (θ : ℝ) (v : Vec3) :
    (Vec3.rotY θ v).dot (Vec3.rotY θ v) = v.dot v := by
  simp only [Vec3.rotY, Vec3.dot]
  linear_combination (v.x ^ 2 + v.z ^ 2) * Real.cos_sq_add_sin_sq θ

/-- Predicate: `b` keeps the sign of `a` and does not exceed it in magnitude. -/
def SignKept (a b : ℝ) : Prop :=
  (0 < a → 0 < b) ∧ (a < 0 → b < 0) ∧ (a = 0 → b = 0) ∧ |b| ≤ |a|

/-- Scaling by a factor in `(0, 1]` keeps sign and magnitude bounds. -/
theorem signKept_mul (c a : ℝ) (h0 : 0 < c) (h1 : c ≤ 1) : SignKept a (c * a) := by
  refine ⟨fun h => mul_pos h0 h, fun h => mul_neg_of_pos_of_neg h0 h,
    fun h => by simp [h], ?_⟩
  rw [abs_mul, abs_of_pos h0]
  exact mul_le_of_le_one_left (abs_nonneg a) h1

/-- For `0 ≤ dt` the ground damping factor `exp (-(4 dt))` lies in `(0, 1]`. -/
theorem exp_factor_bounds (dt : ℝ) (h : 0 ≤ dt) :
    0 < Real.exp (-(4 * dt)) ∧ Real.exp (-(4 * dt)) ≤ 1 := by
  refine ⟨Real.exp_pos _, ?_⟩
  calc Real.exp (-(4 * dt)) ≤ Real.exp 0 := Real.exp_le_exp.mpr (by linarith)
    _ = 1 := Real.exp_zero

/-! ### Claim theorems -/

/-- C1: for a `checkCollisions` contact whose unit normal has vertical
component `≤ 0` and penetration depth at least the `1e-10` noise floor, the
collider is translated by exactly `normal * depth`; the post-resolution
velocity is `v - normal * dot(normal, v)`, its component along the normal is
zero, and every component orthogonal to the normal is unchanged. -/
theorem C1_checkCollisions_slide_resolution (s : CharPM.State) (r : Contact)
    (hn : r.normal.y ≤ 0) (hd : noiseFloor ≤ r.depth)
    (hu : r.normal.dot r.normal = 1) :
    (CharPM.checkCollisions s (some r)).playerCollider
        = s.playerCollider.translate (Vec3.smul r.depth r.normal) ∧
    (CharPM.checkCollisions s (some r)).playerVelocity
        = s.playerVelocity.sub (Vec3.smul (r.normal.dot s.playerVelocity) r.normal) ∧
    r.normal.dot (CharPM.checkCollisions s (some r)).playerVelocity = 0 ∧
    ∀ u : Vec3, u.dot r.normal = 0 →
      u.dot (CharPM.checkCollisions s (some r)).playerVelocity
        = u.dot s.playerVelocity := by
  have hfloor : ¬(0 < r.normal.y) := not_lt.mpr hn
  have hu2 : r.normal.x * r.normal.x + r.normal.y * r.normal.y
      + r.normal.z * r.normal.z = 1 := hu
  refine ⟨?_, ?_, ?_, ?_⟩
  · simp [CharPM.checkCollisions, hfloor, hd]
  · ext <;>
      simp [CharPM.checkCollisions, hfloor, hd, Vec3.addScaledVector, Vec3.add,
        Vec3.sub, Vec3.smul, Vec3.dot] <;> ring
  · simp only [CharPM.checkCollisions, hfloor, if_false, Vec3.addScaledVector,
      Vec3.add, Vec3.smul, Vec3.dot, Bool.false_eq_true, ite_false]
    linear_combination (-(r.normal.x * s.playerVelocity.x
      + r.normal.y * s.playerVelocity.y + r.normal.z * s.playerVelocity.z)) * hu2
  · intro u hun
    have hun2 : u.x * r.normal.x + u.y * r.normal.y + u.z * r.normal.z = 0 := hun
    simp only [CharPM.checkCollisions, hfloor, if_false, Vec3.addScaledVector,
      Vec3.add, Vec3.smul, Vec3.dot, Bool.false_eq_true, ite_false]
    linear_combination (-(r.normal.x * s.playerVelocity.x
      + r.normal.y * s.playerVelocity.y + r.normal.z * s.playerVelocity.z)) * hun2

/-- Witness for C1: contact normal `(0,-1,0)`, depth `1`, initial state. -/
theorem C1_checkCollisions_slide_resolution_witness :
    ((-1 : ℝ) ≤ 0 ∧ noiseFloor ≤ (1 : ℝ) ∧
      Vec3.dot ⟨0, -1, 0⟩ ⟨0, -1, 0⟩ = 1) ∧
    ((CharPM.checkCollisions CharPM.initial (some ⟨⟨0, -1, 0⟩, 1⟩)).playerCollider
        = CharPM.initial.playerCollider.translate (Vec3.smul 1 ⟨0, -1, 0⟩) ∧
      (CharPM.checkCollisions CharPM.initial (some ⟨⟨0, -1, 0⟩, 1⟩)).playerVelocity
        = CharPM.initial.playerVelocity.sub
            (Vec3.smul (Vec3.dot ⟨0, -1, 0⟩ CharPM.initial.playerVelocity) ⟨0, -1, 0⟩) ∧
      Vec3.dot ⟨0, -1, 0⟩
          (CharPM.checkCollisions CharPM.initial (some ⟨⟨0, -1, 0⟩, 1⟩)).playerVelocity = 0 ∧
      ∀ u : Vec3, u.dot ⟨0, -1, 0⟩ = 0 →
        u.dot (CharPM.checkCollisions CharPM.initial (some ⟨⟨0, -1, 0⟩, 1⟩)).playerVelocity
          = u.dot CharPM.initial.playerVelocity) :=
  ⟨⟨by norm_num, by norm_num [noiseFloor], by norm_num [Vec3.dot]⟩,
    C1_checkCollisions_slide_resolution CharPM.initial ⟨⟨0, -1, 0⟩, 1⟩
      (by norm_num) (by norm_num [noiseFloor]) (by norm_num [Vec3.dot])⟩

/-- C2: on the floor `updatePhysics` applies no gravity term to the vertical
velocity (only the damping multiplier scales it); airborne, it first
subtracts exactly `gravity * dt` and then applies the reduced air damping
multiplier. -/
theorem C2_updatePhysics_gravity_split (s : CharPM.State) (dt g : ℝ) (hdt : 0 ≤ dt) :
    (s.playerOnFloor = true →
      (CharPM.updatePhysics s dt g).playerVelocity.y
        = s.playerVelocity.y * Real.exp (-(s.dampingFactor * dt))) ∧
    (s.playerOnFloor = false →
      (CharPM.updatePhysics s dt g).playerVelocity.y
        = (s.playerVelocity.y - g * dt)
            * (1 + (Real.exp (-(s.dampingFactor * dt)) - 1) * 0.1)) := by
  constructor <;> intro h <;>
    simp [CharPM.updatePhysics, h, Vec3.addScaledVector, Vec3.add, Vec3.smul,
      Vec3.setY] <;> ring

/-- Witness for C2 at the initial state, `dt = 0`, `gravity = 30`. -/
theorem C2_updatePhysics_gravity_split_witness :
    (0 : ℝ) ≤ 0 ∧
    ((CharPM.initial.playerOnFloor = true →
      (CharPM.updatePhysics CharPM.initial 0 30).playerVelocity.y
        = CharPM.initial.playerVelocity.y
            * Real.exp (-(CharPM.initial.dampingFactor * 0))) ∧
     (CharPM.initial.playerOnFloor = false →
      (CharPM.updatePhysics CharPM.initial 0 30).playerVelocity.y
        = (CharPM.initial.playerVelocity.y - 30 * 0)
            * (1 + (Real.exp (-(CharPM.initial.dampingFactor * 0)) - 1) * 0.1))) :=
  ⟨le_refl 0, C2_updatePhysics_gravity_split CharPM.initial 0 30 (le_refl 0)⟩

/-- C3: with no contact, `checkCollisions` clears the floor flag and leaves
velocity and collider unmodified; with a contact whose normal has positive
vertical component, the floor flag becomes true and the velocity is left
unmodified by the slide-removal step. -/
theorem C3_checkCollisions_contact_classification (s : CharPM.State) (r : Contact)
    (hr : 0 < r.normal.y) :
    ((CharPM.checkCollisions s none).playerOnFloor = false ∧
      (CharPM.checkCollisions s none).playerVelocity = s.playerVelocity ∧
      (CharPM.checkCollisions s none).playerCollider = s.playerCollider) ∧
    ((CharPM.checkCollisions s (some r)).playerOnFloor = true ∧
      (CharPM.checkCollisions s (some r)).playerVelocity = s.playerVelocity) := by
  simp [CharPM.checkCollisions, hr]

/-- Witness for C3: contact normal `(0,1,0)`, depth `1`, initial state. -/
theorem C3_checkCollisions_contact_classification_witness :
    (0 : ℝ) < 1 ∧
    (((CharPM.checkCollisions CharPM.initial none).playerOnFloor = false ∧
      (CharPM.checkCollisions CharPM.initial none).playerVelocity
        = CharPM.initial.playerVelocity ∧
      (CharPM.checkCollisions CharPM.initial none).playerCollider
        = CharPM.initial.playerCollider) ∧
     ((CharPM.checkCollisions CharPM.initial (some ⟨⟨0, 1, 0⟩, 1⟩)).playerOnFloor = true ∧
      (CharPM.checkCollisions CharPM.initial (some ⟨⟨0, 1, 0⟩, 1⟩)).playerVelocity
        = CharPM.initial.playerVelocity)) :=
  ⟨by norm_num,
    C3_checkCollisions_contact_classification CharPM.initial ⟨⟨0, 1, 0⟩, 1⟩ (by norm_num)⟩

/-- C4: in both controller variants, when the out-of-bounds check fires
(the collider position returned by `getColliderPosition`, i.e. the capsule
end point, has `y ≤ -25`), the teleport leaves the collider equal to the
canonical spawn capsule and the velocity exactly zero, regardless of the
pre-reset velocity and collider. -/
theorem C4_teleport_reset (sc : CharPM.State) (sm : CamPM.State)
    (hc : (CharPM.getColliderPosition sc).y ≤ -25)
    (hm : (CamPM.getColliderPosition sm).y ≤ -25) :
    (teleportPlayerIfOobChar sc).playerCollider = spawnCapsule ∧
    (teleportPlayerIfOobChar sc).playerVelocity = Vec3.zero ∧
    (teleportPlayerIfOobCam sm).playerCollider = spawnCapsule ∧
    (teleportPlayerIfOobCam sm).playerVelocity = Vec3.zero := by
  simp [teleportPlayerIfOobChar, teleportPlayerIfOobCam, hc, hm,
    CharPM.resetPosition, CamPM.resetPosition, spawnCapsule, Vec3.zero]

/-- Witness for C4: both variants fallen to `y = -30` with nonzero
velocity. -/
theorem C4_teleport_reset_witness :
    (CharPM.getColliderPosition
        { CharPM.initial with
          playerCollider := ⟨⟨0, -31, 0⟩, ⟨0, -30, 0⟩, 0.35⟩
          playerVelocity := ⟨1, -9, 2⟩ }).y ≤ -25 ∧
    (CamPM.getColliderPosition
        { CamPM.initial with
          playerCollider := ⟨⟨0, -31, 0⟩, ⟨0, -30, 0⟩, 0.35⟩
          playerVelocity := ⟨1, -9, 2⟩ }).y ≤ -25 ∧
    ((teleportPlayerIfOobChar
        { CharPM.initial with
          playerCollider := ⟨⟨0, -31, 0⟩, ⟨0, -30, 0⟩, 0.35⟩
          playerVelocity := ⟨1, -9, 2⟩ }).playerCollider = spawnCapsule ∧
     (teleportPlayerIfOobChar
        { CharPM.initial with
          playerCollider := ⟨⟨0, -31, 0⟩, ⟨0, -30, 0⟩, 0.35⟩
          playerVelocity := ⟨1, -9, 2⟩ }).playerVelocity = Vec3.zero ∧
     (teleportPlayerIfOobCam
        { CamPM.initial with
          playerCollider := ⟨⟨0, -31, 0⟩, ⟨0, -30, 0⟩, 0.35⟩
          playerVelocity := ⟨1, -9, 2⟩ }).playerCollider = spawnCapsule ∧
     (teleportPlayerIfOobCam
        { CamPM.initial with
          playerCollider := ⟨⟨0, -31, 0⟩, ⟨0, -30, 0⟩, 0.35⟩
          playerVelocity := ⟨1, -9, 2⟩ }).playerVelocity = Vec3.zero) :=
  ⟨by norm_num [CharPM.getColliderPosition],
   by norm_num [CamPM.getColliderPosition],
   C4_teleport_reset _ _ (by norm_num [CharPM.getColliderPosition])
     (by norm_num [CamPM.getColliderPosition])⟩

/-- C6: in the character-driven `processMovement`, when forward and backward
flags are both set the accumulated move vector is the zero vector, its
(guarded) normalisation is still the zero vector rather than a division by
zero, and the translate-intent step leaves the velocity unchanged. -/
theorem C6_forward_backward_cancel (s : CharPM.State) (dt : ℝ)
    (hf : s.moveState.forward = true) (hb : s.moveState.backward = true) :
    CharPM.accumMoveDirection s = Vec3.zero ∧
    (CharPM.accumMoveDirection s).normalize = Vec3.zero ∧
    (CharPM.moveStep s dt).playerVelocity = s.playerVelocity := by
  have hacc : CharPM.accumMoveDirection s = Vec3.zero := by
    ext <;> simp [CharPM.accumMoveDirection, hf, hb, Vec3.zero, Vec3.add, Vec3.sub]
  have hdir : Vec3.setY (Vec3.normalize (CharPM.accumMoveDirection s)) 0 = Vec3.zero := by
    rw [hacc, Vec3.normalize_zero]; rfl
  refine ⟨hacc, by rw [hacc]; exact Vec3.normalize_zero, ?_⟩
  ext <;> simp [CharPM.moveStep, hf, hb, hdir, Vec3.zero, Vec3.add, Vec3.smul]

/-- Witness for C6: initial state with W and S both held, `dt = 0.01`. -/
theorem C6_forward_backward_cancel_witness :
    ({ CharPM.initial with
        moveState := ⟨true, true, false, false, false⟩ } : CharPM.State).moveState.forward
      = true ∧
    ({ CharPM.initial with
        moveState := ⟨true, true, false, false, false⟩ } : CharPM.State).moveState.backward
      = true ∧
    (CharPM.accumMoveDirection
        { CharPM.initial with moveState := ⟨true, true, false, false, false⟩ }
      = Vec3.zero ∧
     (CharPM.accumMoveDirection
        { CharPM.initial with moveState := ⟨true, true, false, false, false⟩ }).normalize
      = Vec3.zero ∧
     (CharPM.moveStep
        { CharPM.initial with moveState := ⟨true, true, false, false, false⟩ }
        0.01).playerVelocity
      = ({ CharPM.initial with
            moveState := ⟨true, true, false, false, false⟩ } : CharPM.State).playerVelocity) :=
  ⟨rfl, rfl, C6_forward_backward_cancel _ 0.01 rfl rfl⟩

/-- C7: `executeJump` in either variant sets the vertical velocity to exactly
the fixed jump speed 15 when on the floor (overwriting, horizontal components
unchanged, collider unchanged) and is a complete no-op when airborne. -/
theorem C7_executeJump_impulse (sc : CharPM.State) (sm : CamPM.State)
    (hc : sc.jumpForce = 15) (hm : sm.jumpForce = 15) :
    (sc.playerOnFloor = true →
      (CharPM.executeJump sc).playerVelocity
          = ⟨sc.playerVelocity.x, 15, sc.playerVelocity.z⟩ ∧
      (CharPM.executeJump sc).playerCollider = sc.playerCollider) ∧
    (sc.playerOnFloor = false → CharPM.executeJump sc = sc) ∧
    (sm.playerOnFloor = true →
      (CamPM.executeJump sm).playerVelocity
          = ⟨sm.playerVelocity.x, 15, sm.playerVelocity.z⟩ ∧
      (CamPM.executeJump sm).playerCollider = sm.playerCollider) ∧
    (sm.playerOnFloor = false → CamPM.executeJump sm = sm) := by
  refine ⟨fun h => ?_, fun h => ?_, fun h => ?_, fun h => ?_⟩ <;>
    simp [CharPM.executeJump, CamPM.executeJump, h, hc, hm, Vec3.setY]

/-- Concrete on-floor character-driven state for the C7 witness. -/
def c7CharState : CharPM.State :=
  { CharPM.initial with
    playerOnFloor := true
    playerVelocity := ⟨1, -9, 2⟩ }

/-- Concrete on-floor camera-driven state for the C7 witness. -/
def c7CamState : CamPM.State :=
  { CamPM.initial with
    playerOnFloor := true
    playerVelocity := ⟨1, -9, 2⟩ }

/-- Witness for C7: both variants on the floor with velocity `(1,-9,2)`. -/
theorem C7_executeJump_impulse_witness :
    c7CharState.jumpForce = 15 ∧ c7CamState.jumpForce = 15 ∧
    ((c7CharState.playerOnFloor = true →
      (CharPM.executeJump c7CharState).playerVelocity
          = ⟨c7CharState.playerVelocity.x, 15, c7CharState.playerVelocity.z⟩ ∧
      (CharPM.executeJump c7CharState).playerCollider = c7CharState.playerCollider) ∧
     (c7CharState.playerOnFloor = false → CharPM.executeJump c7CharState = c7CharState) ∧
     (c7CamState.playerOnFloor = true →
      (CamPM.executeJump c7CamState).playerVelocity
          = ⟨c7CamState.playerVelocity.x, 15, c7CamState.playerVelocity.z⟩ ∧
      (CamPM.executeJump c7CamState).playerCollider = c7CamState.playerCollider) ∧
     (c7CamState.playerOnFloor = false → CamPM.executeJump c7CamState = c7CamState)) :=
  ⟨rfl, rfl, C7_executeJump_impulse c7CharState c7CamState rfl rfl⟩

/-- C8: with only the left flag set, the turn step rotates the facing
direction by exactly `+1.5 * dt` radians about the vertical axis (only the
right flag: `-1.5 * dt`); the rotation preserves the squared length, so a
unit direction stays a unit vector after the step and renormalisation. -/
theorem C8_turnStep_rotation (s : CharPM.State) (dt : ℝ)
    (hu : s.playerDirection.dot s.playerDirection = 1) :
    (s.moveState.left = true → s.moveState.right = false →
      (CharPM.turnStep s dt).playerDirection
          = Vec3.rotY (1.5 * dt) s.playerDirection ∧
      ((CharPM.turnStep s dt).playerDirection).dot
          ((CharPM.turnStep s dt).playerDirection) = 1) ∧
    (s.moveState.left = false → s.moveState.right = true →
      (CharPM.turnStep s dt).playerDirection
          = Vec3.rotY (-(1.5 * dt)) s.playerDirection ∧
      ((CharPM.turnStep s dt).playerDirection).dot
          ((CharPM.turnStep s dt).playerDirection) = 1) ∧
    (∀ w : Vec3, (Vec3.rotY (1.5 * dt) w).dot (Vec3.rotY (1.5 * dt) w) = w.dot w) := by
  have hrot : ∀ θ : ℝ,
      (Vec3.rotY θ s.playerDirection).dot (Vec3.rotY θ s.playerDirection) = 1 :=
    fun θ => (Vec3.dot_rotY_self θ s.playerDirection).trans hu
  refine ⟨fun hl hr => ?_, fun hl hr => ?_, fun w => Vec3.dot_rotY_self _ w⟩
  · have hdir : (CharPM.turnStep s dt).playerDirection
        = Vec3.rotY (1.5 * dt) s.playerDirection := by
      simp [CharPM.turnStep, hl, hr,
        Vec3.normalize_of_unit (Vec3.rotY (1.5 * dt) s.playerDirection) (hrot _)]
    exact ⟨hdir, by rw [hdir]; exact hrot _⟩
  · have hdir : (CharPM.turnStep s dt).playerDirection
        = Vec3.rotY (-(1.5 * dt)) s.playerDirection := by
      simp [CharPM.turnStep, hl, hr,
        Vec3.normalize_of_unit (Vec3.rotY (-(1.5 * dt)) s.playerDirection) (hrot _)]
    exact ⟨hdir, by rw [hdir]; exact hrot _⟩

/-- Witness for C8: initial state (facing `(0,0,1)`) with A held, `dt = 1`. -/
theorem C8_turnStep_rotation_witness :
    Vec3.dot
        ({ CharPM.initial with
            moveState := ⟨false, false, true, false, false⟩ } : CharPM.State).playerDirection
        ({ CharPM.initial with
            moveState := ⟨false, false, true, false, false⟩ } : CharPM.State).playerDirection
      = 1 ∧
    ((({ CharPM.initial with
          moveState := ⟨false, false, true, false, false⟩ } : CharPM.State).moveState.left
        = true →
      ({ CharPM.initial with
          moveState := ⟨false, false, true, false, false⟩ } : CharPM.State).moveState.right
        = false →
      (CharPM.turnStep
          { CharPM.initial with moveState := ⟨false, false, true, false, false⟩ }
          1).playerDirection
        = Vec3.rotY (1.5 * 1)
            ({ CharPM.initial with
                moveState := ⟨false, false, true, false, false⟩ } : CharPM.State).playerDirection ∧
      ((CharPM.turnStep
          { CharPM.initial with moveState := ⟨false, false, true, false, false⟩ }
          1).playerDirection).dot
        ((CharPM.turnStep
          { CharPM.initial with moveState := ⟨false, false, true, false, false⟩ }
          1).playerDirection) = 1) ∧
     (({ CharPM.initial with
          moveState := ⟨false, false, true, false, false⟩ } : CharPM.State).moveState.left
        = false →
      ({ CharPM.initial with
          moveState := ⟨false, false, true, false, false⟩ } : CharPM.State).moveState.right
        = true →
      (CharPM.turnStep
          { CharPM.initial with moveState := ⟨false, false, true, false, false⟩ }
          1).playerDirection
        = Vec3.rotY (-(1.5 * 1))
            ({ CharPM.initial with
                moveState := ⟨false, false, true, false, false⟩ } : CharPM.State).playerDirection ∧
      ((CharPM.turnStep
          { CharPM.initial with moveState := ⟨false, false, true, false, false⟩ }
          1).playerDirection).dot
        ((CharPM.turnStep
          { CharPM.initial with moveState := ⟨false, false, true, false, false⟩ }
          1).playerDirection) = 1) ∧
     (∀ w : Vec3, (Vec3.rotY (1.5 * 1) w).dot (Vec3.rotY (1.5 * 1) w) = w.dot w)) :=
  ⟨by norm_num [Vec3.dot, CharPM.initial],
    C8_turnStep_rotation
      { CharPM.initial with moveState := ⟨false, false, true, false, false⟩ } 1
      (by norm_num [Vec3.dot, CharPM.initial])⟩

/-- Key state with only the Space bar held. -/
def spaceHeld : KeyStates := ⟨false, false, false, false, true⟩

/-- A camera-driven player standing on the floor at spawn. -/
def onFloorCam : CamPM.State := { CamPM.initial with playerOnFloor := true }

/-- The state pair after a first camera-driven `processMovement` tick with
Space held and the player on the floor. -/
def afterFirstJumpTick : PlayerCamera.CamState × CamPM.State :=
  PlayerCamera.processMovement ⟨⟨false, false, false, false, false⟩⟩ onFloorCam
    spaceHeld 0.01 ⟨0, 0, 1⟩ ⟨0, 1, 0⟩

/-- The player state between the two ticks, with the vertical velocity
changed to `3` (as the interleaved `updatePhysics` would change it), so that
a second impulse is observable. -/
def betweenTicksCam : CamPM.State :=
  { afterFirstJumpTick.2 with playerVelocity := ⟨0, 3, 0⟩ }

/-- C5: the first `processMovement` call with Space held fires the jump
(vertical velocity becomes 15) and clears the one-shot jump flag, yet the
second consecutive call with Space still held fires the jump again (vertical
velocity 3 becomes 15): `processMovement` re-reads the raw key state via
`updateMovementState` before consulting the flag, so the self-reset is
overwritten and the impulse fires on every tick while the key is held,
contrary to the one-shot behaviour the source comments on. -/
theorem C5_jump_refires_every_tick :
    afterFirstJumpTick.1.moveState.jump = false ∧
    afterFirstJumpTick.2.playerVelocity.y = 15 ∧
    betweenTicksCam.playerVelocity.y = 3 ∧
    (PlayerCamera.processMovement afterFirstJumpTick.1 betweenTicksCam
        spaceHeld 0.01 ⟨0, 0, 1⟩ ⟨0, 1, 0⟩).2.playerVelocity.y = 15 :=
  ⟨rfl, rfl, rfl, rfl⟩

/-- C9: for `0 < dt ≤ 0.01` and the default damping factor 4, the damping
multiplier applied by `updatePhysics` (`exp(-4 dt)` on the floor,
`1 + (exp(-4 dt) - 1) * 0.1` airborne) is strictly positive and at most 1;
the damped velocity is exactly the pre-damping velocity scaled by that
multiplier, so a single damping step never reverses the sign of a velocity
component and never increases its magnitude. -/
theorem C9_damping_multiplier_bounds (s : CharPM.State) (dt g : ℝ)
    (h1 : 0 < dt) (h2 : dt ≤ 0.01) (hdf : s.dampingFactor = 4) :
    (0 < Real.exp (-(4 * dt)) ∧ Real.exp (-(4 * dt)) ≤ 1) ∧
    (0 < 1 + (Real.exp (-(4 * dt)) - 1) * 0.1 ∧
      1 + (Real.exp (-(4 * dt)) - 1) * 0.1 ≤ 1) ∧
    (s.playerOnFloor = true →
      (CharPM.updatePhysics s dt g).playerVelocity
          = Vec3.smul (Real.exp (-(4 * dt))) s.playerVelocity ∧
      SignKept s.playerVelocity.x (CharPM.updatePhysics s dt g).playerVelocity.x ∧
      SignKept s.playerVelocity.y (CharPM.updatePhysics s dt g).playerVelocity.y ∧
      SignKept s.playerVelocity.z (CharPM.updatePhysics s dt g).playerVelocity.z) ∧
    (s.playerOnFloor = false →
      (CharPM.updatePhysics s dt g).playerVelocity
          = Vec3.smul (1 + (Real.exp (-(4 * dt)) - 1) * 0.1)
              (s.playerVelocity.setY (s.playerVelocity.y - g * dt)) ∧
      SignKept s.playerVelocity.x (CharPM.updatePhysics s dt g).playerVelocity.x ∧
      SignKept (s.playerVelocity.y - g * dt)
        (CharPM.updatePhysics s dt g).playerVelocity.y ∧
      SignKept s.playerVelocity.z (CharPM.updatePhysics s dt g).playerVelocity.z) := by
  have he := exp_factor_bounds dt h1.le
  have hair0 : 0 < 1 + (Real.exp (-(4 * dt)) - 1) * 0.1 := by nlinarith [he.1, he.2]
  have hair1 : 1 + (Real.exp (-(4 * dt)) - 1) * 0.1 ≤ 1 := by nlinarith [he.1, he.2]
  refine ⟨he, ⟨hair0, hair1⟩, fun h => ?_, fun h => ?_⟩
  · have hv : (CharPM.updatePhysics s dt g).playerVelocity
        = Vec3.smul (Real.exp (-(4 * dt))) s.playerVelocity := by
      ext <;>
        simp [CharPM.updatePhysics, h, hdf, Vec3.addScaledVector, Vec3.add,
          Vec3.smul] <;> ring
    rw [hv]
    exact ⟨rfl, signKept_mul _ _ he.1 he.2, signKept_mul _ _ he.1 he.2,
      signKept_mul _ _ he.1 he.2⟩
  · have hv : (CharPM.updatePhysics s dt g).playerVelocity
        = Vec3.smul (1 + (Real.exp (-(4 * dt)) - 1) * 0.1)
            (s.playerVelocity.setY (s.playerVelocity.y - g * dt)) := by
      ext <;>
        simp [CharPM.updatePhysics, h, hdf, Vec3.addScaledVector, Vec3.add,
          Vec3.smul, Vec3.setY] <;> ring
    rw [hv]
    exact ⟨rfl, signKept_mul _ _ hair0 hair1, signKept_mul _ _ hair0 hair1,
      signKept_mul _ _ hair0 hair1⟩

/-- Witness for C9 at the initial state, `dt = 0.005`, `gravity = 30`. -/
theorem C9_damping_multiplier_bounds_witness :
    (0 : ℝ) < 0.005 ∧ (0.005 : ℝ) ≤ 0.01 ∧ CharPM.initial.dampingFactor = 4 ∧
    ((0 < Real.exp (-(4 * (0.005 : ℝ))) ∧ Real.exp (-(4 * (0.005 : ℝ))) ≤ 1) ∧
     (0 < 1 + (Real.exp (-(4 * (0.005 : ℝ))) - 1) * 0.1 ∧
       1 + (Real.exp (-(4 * (0.005 : ℝ))) - 1) * 0.1 ≤ 1) ∧
     (CharPM.initial.playerOnFloor = true →
      (CharPM.updatePhysics CharPM.initial 0.005 30).playerVelocity
          = Vec3.smul (Real.exp (-(4 * (0.005 : ℝ)))) CharPM.initial.playerVelocity ∧
      SignKept CharPM.initial.playerVelocity.x
        (CharPM.updatePhysics CharPM.initial 0.005 30).playerVelocity.x ∧
      SignKept CharPM.initial.playerVelocity.y
        (CharPM.updatePhysics CharPM.initial 0.005 30).playerVelocity.y ∧
      SignKept CharPM.initial.playerVelocity.z
        (CharPM.updatePhysics CharPM.initial 0.005 30).playerVelocity.z) ∧
     (CharPM.initial.playerOnFloor = false →
      (CharPM.updatePhysics CharPM.initial 0.005 30).playerVelocity
          = Vec3.smul (1 + (Real.exp (-(4 * (0.005 : ℝ))) - 1) * 0.1)
              (CharPM.initial.playerVelocity.setY
                (CharPM.initial.playerVelocity.y - 30 * 0.005)) ∧
      SignKept CharPM.initial.playerVelocity.x
        (CharPM.updatePhysics CharPM.initial 0.005 30).playerVelocity.x ∧
      SignKept (CharPM.initial.playerVelocity.y - 30 * 0.005)
        (CharPM.updatePhysics CharPM.initial 0.005 30).playerVelocity.y ∧
      SignKept CharPM.initial.playerVelocity.z
        (CharPM.updatePhysics CharPM.initial 0.005 30).playerVelocity.z)) :=
  ⟨by norm_num, by norm_num, rfl,
    C9_damping_multiplier_bounds CharPM.initial 0.005 30 (by norm_num) (by norm_num) rfl⟩

/-- C10: with the default movement parameters (`groundSpeed 25`, `airSpeed 8`,
`jumpForce 15`, `dampingFactor 4`), on identical inputs the character-driven
`updatePhysics`/`checkCollisions`, the camera-driven
`updatePhysics`/`checkCollisions`, and the basic game scene's inline
`updatePlayer`/`playerCollisions` compute identical velocity, collider and
floor-flag updates (the basic scene fixes gravity to the constant
`GRAVITY = 30`, the same value both variant scenes pass to
`updatePhysics`). -/
theorem C10_physics_core_duplication (collider : Capsule) (vel : Vec3)
    (onFloor : Bool) (dir : Vec3) (ms : MoveState) (dt g : ℝ)
    (result : Option Contact) :
    ((CharPM.updatePhysics ⟨collider, vel, onFloor, dir, ms, 25, 8, 15, 4⟩ dt g).playerVelocity
        = (CamPM.updatePhysics ⟨collider, vel, onFloor, 25, 8, 15, 4⟩ dt g).playerVelocity ∧
     (CharPM.updatePhysics ⟨collider, vel, onFloor, dir, ms, 25, 8, 15, 4⟩ dt g).playerCollider
        = (CamPM.updatePhysics ⟨collider, vel, onFloor, 25, 8, 15, 4⟩ dt g).playerCollider ∧
     (CharPM.updatePhysics ⟨collider, vel, onFloor, dir, ms, 25, 8, 15, 4⟩ dt g).playerOnFloor
        = (CamPM.updatePhysics ⟨collider, vel, onFloor, 25, 8, 15, 4⟩ dt g).playerOnFloor) ∧
    ((CharPM.checkCollisions ⟨collider, vel, onFloor, dir, ms, 25, 8, 15, 4⟩ result).playerVelocity
        = (CamPM.checkCollisions ⟨collider, vel, onFloor, 25, 8, 15, 4⟩ result).playerVelocity ∧
     (CharPM.checkCollisions ⟨collider, vel, onFloor, dir, ms, 25, 8, 15, 4⟩ result).playerCollider
        = (CamPM.checkCollisions ⟨collider, vel, onFloor, 25, 8, 15, 4⟩ result).playerCollider ∧
     (CharPM.checkCollisions ⟨collider, vel, onFloor, dir, ms, 25, 8, 15, 4⟩ result).playerOnFloor
        = (CamPM.checkCollisions ⟨collider, vel, onFloor, 25, 8, 15, 4⟩ result).playerOnFloor) ∧
    ((CharPM.checkCollisions ⟨collider, vel, onFloor, dir, ms, 25, 8, 15, 4⟩ result).playerVelocity
        = (GameScene.playerCollisions ⟨collider, vel, onFloor⟩ result).playerVelocity ∧
     (CharPM.checkCollisions ⟨collider, vel, onFloor, dir, ms, 25, 8, 15, 4⟩ result).playerCollider
        = (GameScene.playerCollisions ⟨collider, vel, onFloor⟩ result).playerCollider ∧
     (CharPM.checkCollisions ⟨collider, vel, onFloor, dir, ms, 25, 8, 15, 4⟩ result).playerOnFloor
        = (GameScene.playerCollisions ⟨collider, vel, onFloor⟩ result).playerOnFloor) ∧
    ((GameScene.updatePlayerIntegrate ⟨collider, vel, onFloor⟩ dt).playerVelocity
        = (CharPM.updatePhysics ⟨collider, vel, onFloor, dir, ms, 25, 8, 15, 4⟩ dt
            GameScene.GRAVITY).playerVelocity ∧
     (GameScene.updatePlayerIntegrate ⟨collider, vel, onFloor⟩ dt).playerCollider
        = (CharPM.updatePhysics ⟨collider, vel, onFloor, dir, ms, 25, 8, 15, 4⟩ dt
            GameScene.GRAVITY).playerCollider ∧
     (GameScene.updatePlayerIntegrate ⟨collider, vel, onFloor⟩ dt).playerOnFloor
        = (CharPM.updatePhysics ⟨collider, vel, onFloor, dir, ms, 25, 8, 15, 4⟩ dt
            GameScene.GRAVITY).playerOnFloor) ∧
    ((GameScene.updatePlayer ⟨collider, vel, onFloor⟩ dt result).playerVelocity
        = (CharPM.checkCollisions
            (CharPM.updatePhysics ⟨collider, vel, onFloor, dir, ms, 25, 8, 15, 4⟩ dt
              GameScene.GRAVITY) result).playerVelocity ∧
     (GameScene.updatePlayer ⟨collider, vel, onFloor⟩ dt result).playerCollider
        = (CharPM.checkCollisions
            (CharPM.updatePhysics ⟨collider, vel, onFloor, dir, ms, 25, 8, 15, 4⟩ dt
              GameScene.GRAVITY) result).playerCollider ∧
     (GameScene.updatePlayer ⟨collider, vel, onFloor⟩ dt result).playerOnFloor
        = (CharPM.checkCollisions
            (CharPM.updatePhysics ⟨collider, vel, onFloor, dir, ms, 25, 8, 15, 4⟩ dt
              GameScene.GRAVITY) result).playerOnFloor) := by
  refine ⟨⟨rfl, rfl, rfl⟩, ⟨?_, ?_, ?_⟩, ⟨?_, ?_, ?_⟩, ⟨rfl, rfl, rfl⟩, ⟨?_, ?_, ?_⟩⟩ <;>
    cases result <;> rfl

end ThreeScene

end
